import Mathlib

/-!
Verification development for the resilient stock-data acquisition and
growth-metrics engine.  The Python source (services/stock_data_service.py and
services/yahoo_scraper.py) is shallowly embedded: Python floats are modelled
as exact rationals at the data level, with the derived metrics living in ℝ
(fifth roots and square roots are irrational); Python strings are modelled as
lists of characters; Python exceptions are modelled with `Except`; dates are
modelled as integers ordered like the source's datetimes.
-/

namespace Stock

/-- Canonical stock info record (dataclass `StockInfo`). -/
structure StockInfo where
  symbol : String
  name : String
  sector : String
  industry : String
  market_cap : ℚ
  exchange : String
  currency : String
  asset_type : String
deriving DecidableEq, Repr

/-- Canonical historical data point (dataclass `HistoricalDataPoint`).
Dates are modelled as integers (only their ordering and equality matter). -/
structure HistoricalDataPoint where
  date : Int
  open_price : ℚ
  high_price : ℚ
  low_price : ℚ
  close_price : ℚ
  volume : Int
  dividend_amount : ℚ
  split_coefficient : ℚ
deriving DecidableEq, Repr

/-- Raw scraped historical row (dataclass `ScrapedHistoricalData`). -/
structure ScrapedHistoricalData where
  date : Int
  open_price : ℚ
  high_price : ℚ
  low_price : ℚ
  close_price : ℚ
  volume : Int
  adj_close : ℚ
deriving DecidableEq, Repr

/-- The derived growth metrics dictionary returned by
`calculate_growth_metrics` (keys of the Python dict become fields). -/
structure GrowthMetrics where
  cagr_1y : ℝ
  cagr_5y : ℝ
  volatility : ℝ
  max_drawdown : ℝ
  sharpe_ratio : ℝ
  current_price : ℝ

/-- `df.sort_values('date')` comparator: ascending by date. -/
def byDateLe (a b : HistoricalDataPoint) : Prop := a.date ≤ b.date

instance : DecidableRel byDateLe := fun a b =>
  inferInstanceAs (Decidable (a.date ≤ b.date))

instance : IsTotal HistoricalDataPoint byDateLe :=
  ⟨fun a b => le_total a.date b.date⟩

instance : IsTrans HistoricalDataPoint byDateLe :=
  ⟨fun _ _ _ h h' => le_trans h h'⟩

/-- Two points agreeing on the fields `calculate_growth_metrics` reads:
date (the sort key) and close price. -/
def pcEq (a b : HistoricalDataPoint) : Prop :=
  a.date = b.date ∧ a.close_price = b.close_price

/-- Daily returns `r_t = P_t / P_{t-1} - 1` (pandas `pct_change`; the leading
NaN row is dropped, as pandas' `std`/`mean` skip it). -/
noncomputable def dailyReturns (closes : List ℚ) : List ℝ :=
  List.zipWith (fun prev cur => (cur : ℝ) / (prev : ℝ) - 1) closes closes.tail

/-- Arithmetic mean (pandas `Series.mean` over the non-NaN entries). -/
noncomputable def listMean (l : List ℝ) : ℝ := l.sum / l.length

/-- Sample standard deviation with `ddof = 1` (pandas `Series.std`). -/
noncomputable def sampleStd (l : List ℝ) : ℝ :=
  Real.sqrt ((l.map (fun x => (x - listMean l) ^ 2)).sum / ((l.length : ℝ) - 1))

/-- Running maximum (`Series.cummax`), given the running peak so far. -/
def cummaxAux (m : ℚ) : List ℚ → List ℚ
  | [] => []
  | y :: ys => max m y :: cummaxAux (max m y) ys

/-- Running maximum of a close series (`df['close'].cummax()`). -/
def cummax : List ℚ → List ℚ
  | [] => []
  | x :: xs => x :: cummaxAux x xs

/-- Minimum of a list of reals (`Series.min`); `0` on the empty list, which
is never hit on the ≥ 252-point inputs the engine accepts. -/
noncomputable def listMin : List ℝ → ℝ
  | [] => 0
  | x :: xs => xs.foldl min x

/-- The body of `calculate_growth_metrics` after the dataframe has been
sorted by date: every metric is computed from the ordered close series. -/
noncomputable def computeFromCloses (closes : List ℚ) : GrowthMetrics :=
  let n := closes.length
  let current : ℝ := (closes.getD (n - 1) 0 : ℚ)
  let p1y : ℝ := (closes.getD (n - 252) 0 : ℚ)
  let p5y : ℝ := if 1260 ≤ n then (closes.getD (n - 1260) 0 : ℚ) else (closes.getD 0 0 : ℚ)
  let rets := dailyReturns closes
  let vol := sampleStd rets * Real.sqrt 252
  let peaks := cummax closes
  let dds := List.zipWith (fun (p m : ℚ) => ((p : ℝ) - (m : ℝ)) / (m : ℝ)) closes peaks
  let avg := listMean rets * 252
  { cagr_1y := current / p1y - 1
    cagr_5y := if 1260 ≤ n then Real.rpow (current / p5y) (1 / 5) - 1 else 0
    volatility := vol
    max_drawdown := listMin dds
    sharpe_ratio := if 0 < vol then (avg - 0.03) / vol else 0
    current_price := current }

/-- `StockDataService.calculate_growth_metrics`: fewer than 252 points return
the empty dict (modelled `none`); otherwise the list is sorted ascending by
date and the metrics are computed from the close column. -/
noncomputable def calculate_growth_metrics (l : List HistoricalDataPoint) :
    Option GrowthMetrics :=
  if l.length < 252 then none
  else some (computeFromCloses ((List.insertionSort byDateLe l).map
    (fun p => p.close_price)))

/-! ### Numeric parsing (yahoo_scraper `_parse_volume`, `_parse_market_cap`)

Python strings are embedded as `List Char`.  `float(...)` applied to a string
already filtered to the alphabet `[0-9.-]` is modelled exactly by
`parseFloatClean`; the `except` clauses that turn a raised `ValueError` into
the zero default are modelled by the `Option` being `none`. -/

/-- Value of a digit string, most significant first. -/
def digitsNat (l : List Char) : ℕ :=
  l.foldl (fun acc c => 10 * acc + (c.toNat - ('0').toNat)) 0

/-- An exactly-represented decimal: sign, integer part, fraction digits'
value, and the number of fraction digits. -/
abbrev Decimal := Bool × ℕ × ℕ × ℕ

/-- The rational value of a parsed decimal. -/
def ratOfDecimal : Decimal → ℚ
  | (sign, ip, fp, fl) => (if sign then -1 else 1) * ((ip : ℚ) + (fp : ℚ) / 10 ^ fl)

/-- Python `float` on an unsigned string drawn from the alphabet `[0-9.]`:
digits with at most one dot, and at least one digit overall. -/
def parseUnsignedDecimal (s : List Char) : Option (ℕ × ℕ × ℕ) :=
  if s.any (fun c => c = '-') then none
  else
    let ip := s.takeWhile (fun c => ¬ c = '.')
    let rest := s.drop ip.length
    if ¬ ip.all Char.isDigit then none
    else
      match rest with
      | [] => if ip.isEmpty then none else some (digitsNat ip, 0, 0)
      | '.' :: fp =>
        if fp.all Char.isDigit ∧ ¬ (ip.isEmpty ∧ fp.isEmpty) then
          some (digitsNat ip, digitsNat fp, fp.length)
        else none
      | _ => none

/-- Python `float` on a string drawn from the alphabet `[0-9.-]`, as an exact
decimal: an optional leading minus sign in front of an unsigned float;
anything else raises, modelled `none`. -/
def parseDecimal (s : List Char) : Option Decimal :=
  match s with
  | '-' :: rest => (parseUnsignedDecimal rest).map (fun t => (true, t))
  | _ => (parseUnsignedDecimal s).map (fun t => (false, t))

/-- Python `float` on a string drawn from the alphabet `[0-9.-]` (the output
alphabet of the source's cleaning regex), as a rational. -/
def parseFloatClean (s : List Char) : Option ℚ :=
  (parseDecimal s).map ratOfDecimal

/-- The cleaning step `re.sub(r'[^\d.-]', '', text)`: keep only digits, dots
and hyphens. -/
def pySubClean (s : List Char) : List Char :=
  s.filter (fun c => c.isDigit ∨ c = '.' ∨ c = '-')

/-- `str.replace(c, '')`. -/
def removeAll (c : Char) (s : List Char) : List Char :=
  s.filter (fun d => ¬ d = c)

/-- Python `int(...)` on a rational: truncation toward zero. -/
def pyIntTrunc (q : ℚ) : Int :=
  if 0 ≤ q then ⌊q⌋ else -⌊-q⌋

/-- The `if 'K' in text ... elif ...` suffix chain: the first listed suffix
letter contained in the text selects its multiplier and is removed; no match
leaves the text unchanged with multiplier 1. -/
def suffixMult (sufs : List (Char × ℕ)) (t : List Char) : ℕ × List Char :=
  match sufs with
  | [] => (1, t)
  | (c, m) :: rest => if t.contains c then (m, removeAll c t) else suffixMult rest t

/-- The suffix chain of `_parse_volume`: `K`, `M`, `B` — no `T`. -/
def volumeSuffixes : List (Char × ℕ) :=
  [('K', 1000), ('M', 1000000), ('B', 1000000000)]

/-- The suffix chain of `_parse_market_cap`: `T`, `B`, `M` — no `K`. -/
def marketCapSuffixes : List (Char × ℕ) :=
  [('T', 1000000000000), ('B', 1000000000), ('M', 1000000)]

/-- The shared preprocessing `text.upper().replace(',', '')`. -/
def upperNoCommas (text : List Char) : List Char :=
  removeAll ',' (text.map Char.toUpper)

/-- `YahooFinanceScraper._parse_volume`: volumes with `K`/`M`/`B` suffixes.
A `T` (or any other letter) is not matched by the suffix chain and is simply
removed by the cleaning regex, so it multiplies by 1. -/
def parse_volume (text : List Char) : Int :=
  if text.isEmpty ∨ text = ['-'] then 0
  else
    let st := suffixMult volumeSuffixes (upperNoCommas text)
    match parseFloatClean (pySubClean st.2) with
    | some q => pyIntTrunc (q * (st.1 : ℚ))
    | none => 0

/-- `YahooFinanceScraper._parse_market_cap`: market caps with `T`/`B`/`M`
suffixes.  A `K` (or any other letter) is not matched by the suffix chain and
is simply removed by the cleaning regex, so it multiplies by 1. -/
def parse_market_cap (text : List Char) : ℚ :=
  if text.isEmpty ∨ text = ['-'] then 0
  else
    let st := suffixMult marketCapSuffixes (upperNoCommas text)
    match parseFloatClean (pySubClean st.2) with
    | some q => q * (st.1 : ℚ)
    | none => 0

/-! ### Retry policy (`retry_on_rate_limit`) and orchestration

A wrapped call is modelled by an oracle `body : Nat → Except PyStr α × List Ev`
giving, for each attempt index, the outcome of running the body (a value or a
raised exception's message) together with the externally visible events the
body performed.  Delays are rationals in seconds; `jitter i` models the
`random.uniform(0, 1)` sample drawn before the retry after attempt `i`. -/

/-- Python strings for error messages. -/
abbrev PyStr := List Char

/-- `pat` occurs as a contiguous substring of `s` (Python's `in`). -/
def containsSub (s pat : PyStr) : Bool :=
  match s with
  | [] => pat.isEmpty
  | _ :: rest => pat.isPrefixOf s || containsSub rest pat

/-- The rate-limit signature `"429"`. -/
def sig429 : PyStr := ['4', '2', '9']

/-- The rate-limit signature `"too many requests"`. -/
def sigTooMany : PyStr :=
  ['t','o','o',' ','m','a','n','y',' ','r','e','q','u','e','s','t','s']

/-- The classifier in the `except` block of `retry_on_rate_limit`:
`"429" in str(e).lower() or "too many requests" in str(e).lower()`. -/
def isRateLimited (msg : PyStr) : Bool :=
  containsSub (msg.map Char.toLower) sig429 ||
    containsSub (msg.map Char.toLower) sigTooMany

/-- Externally visible events of one orchestrated call. -/
inductive Ev where
  | primaryCall : Ev
  | retryDelay : ℚ → Ev
  | fallbackCall : Ev
deriving DecidableEq, Repr

/-- Is the event a backoff sleep? -/
def Ev.isDelay : Ev → Bool
  | .retryDelay _ => true
  | _ => false

/-- Is the event a fallback-extractor invocation? -/
def Ev.isFallback : Ev → Bool
  | .fallbackCall => true
  | _ => false

/-- The delays slept, in order, read off an event trace. -/
def delaysOf (tr : List Ev) : List ℚ :=
  tr.filterMap (fun e => match e with | .retryDelay d => some d | _ => none)

/-- The loop of `retry_on_rate_limit`'s `wrapper`, instrumented with an event
trace.  `remaining` counts the loop iterations left (`max_retries - attempt`),
`attempt` is the current index of Python's `for attempt in range(max_retries)`.
Result `none` models the `return None` after the loop (reachable only when
`max_retries = 0`); `some (.error e)` models `raise e`. -/
def retryGoT (maxRetries : Nat) (base : ℚ) (jitter : Nat → ℚ)
    (body : Nat → Except PyStr α × List Ev) :
    Nat → Nat → Option (Except PyStr α) × List Ev
  | 0, _ => (none, [])
  | remaining + 1, attempt =>
    let (res, tr) := body attempt
    match res with
    | .ok v => (some (.ok v), tr)
    | .error e =>
      if isRateLimited e = true ∧ attempt < maxRetries - 1 then
        let d := base * 2 ^ attempt + jitter attempt
        let rec2 := retryGoT maxRetries base jitter body remaining (attempt + 1)
        (rec2.1, tr ++ Ev.retryDelay d :: rec2.2)
      else (some (.error e), tr)

/-- A full run of a function wrapped by `retry_on_rate_limit(maxRetries,
base)`: start the loop at attempt 0 with the whole budget. -/
def retryRunT (maxRetries : Nat) (base : ℚ) (jitter : Nat → ℚ)
    (body : Nat → Except PyStr α × List Ev) :
    Option (Except PyStr α) × List Ev :=
  retryGoT maxRetries base jitter body maxRetries 0

/-- `retry_on_rate_limit` applied to a bare call with no internal events:
the oracle `outcomes i` is what the wrapped function does on attempt `i`. -/
def retry_on_rate_limit (maxRetries : Nat) (base : ℚ) (jitter : Nat → ℚ)
    (outcomes : Nat → Except PyStr α) : Option (Except PyStr α) × List Ev :=
  retryRunT maxRetries base jitter (fun i => (outcomes i, []))

/-- The scraped-row conversion inside `_get_historical_data_with_scraper`:
dividend and split information is not scraped, so the canonical point is
zero-filled for `dividend_amount` and unit-filled for `split_coefficient`. -/
def scrapedToPoint (d : ScrapedHistoricalData) : HistoricalDataPoint :=
  { date := d.date
    open_price := d.open_price
    high_price := d.high_price
    low_price := d.low_price
    close_price := d.close_price
    volume := d.volume
    dividend_amount := 0
    split_coefficient := 1 }

/-- `StockDataService._get_historical_data_with_scraper`: the scraper session
either yields rows (converted via `scrapedToPoint`) or raises, in which case
the `except` block yields the empty list. -/
def get_historical_data_with_scraper
    (scrapeOutcome : Except PyStr (List ScrapedHistoricalData)) :
    List HistoricalDataPoint :=
  match scrapeOutcome with
  | .ok rows => rows.map scrapedToPoint
  | .error _ => []

/-- The body of `StockDataService.get_stock_info` on one attempt: the primary
API either returns an info record or raises; every raise is caught inside the
body, which then (fallback enabled) runs the scraper and returns its result —
so the body itself never raises. -/
def get_stock_info_body (useFallback : Bool)
    (primary : Except PyStr StockInfo) (fallback : Option StockInfo) :
    Except PyStr (Option StockInfo) × List Ev :=
  match primary with
  | .ok v => (.ok (some v), [Ev.primaryCall])
  | .error _ =>
    if useFallback then (.ok fallback, [Ev.primaryCall, Ev.fallbackCall])
    else (.ok none, [Ev.primaryCall])

/-- A full run of the decorated `get_stock_info`: the retry wrapper around
the exception-swallowing body. -/
def get_stock_info_run (maxRetries : Nat) (base : ℚ) (jitter : Nat → ℚ)
    (useFallback : Bool) (primaryOutcomes : Nat → Except PyStr StockInfo)
    (fallback : Nat → Option StockInfo) :
    Option (Except PyStr (Option StockInfo)) × List Ev :=
  retryRunT maxRetries base jitter
    (fun i => get_stock_info_body useFallback (primaryOutcomes i) (fallback i))

/-- The body of `StockDataService.get_historical_data` on one attempt,
analogous to `get_stock_info_body`: a raise from the primary API is caught,
the scraper fallback is run, and its list (possibly empty) is returned. -/
def get_historical_data_body (useFallback : Bool)
    (primary : Except PyStr (List HistoricalDataPoint))
    (scrape : Except PyStr (List ScrapedHistoricalData)) :
    Except PyStr (List HistoricalDataPoint) × List Ev :=
  match primary with
  | .ok v => (.ok v, [Ev.primaryCall])
  | .error _ =>
    if useFallback then
      (.ok (get_historical_data_with_scraper scrape),
        [Ev.primaryCall, Ev.fallbackCall])
    else (.ok [], [Ev.primaryCall])

/-- A full run of the decorated `get_historical_data`. -/
def get_historical_data_run (maxRetries : Nat) (base : ℚ) (jitter : Nat → ℚ)
    (useFallback : Bool)
    (primaryOutcomes : Nat → Except PyStr (List HistoricalDataPoint))
    (scrape : Nat → Except PyStr (List ScrapedHistoricalData)) :
    Option (Except PyStr (List HistoricalDataPoint)) × List Ev :=
  retryRunT maxRetries base jitter
    (fun i =>
      get_historical_data_body useFallback (primaryOutcomes i) (scrape i))

/-! ### Concurrent fan-out (`update_multiple_stocks`) -/

/-- The per-task handling in `update_multiple_stocks`' collection loop:
a normal completion yields its boolean, a raised exception is caught and
recorded as `False`. -/
def taskValue : Except PyStr Bool → Bool
  | .ok b => b
  | .error _ => false

/-- One step of the collection loop: the dict assignment
`results[symbol] = value` (the dict is modelled as its lookup function). -/
def dictStep (res : String → Option Bool) (t : String × Except PyStr Bool) :
    String → Option Bool :=
  fun k => if k = t.1 then some (taskValue t.2) else res k

/-- `StockDataService.update_multiple_stocks`: one task per requested symbol
(a `(symbol, outcome)` pair, in creation order); the results dict is built by
awaiting every task in turn and assigning `results[symbol]`. -/
def update_multiple_stocks (tasks : List (String × Except PyStr Bool)) :
    String → Option Bool :=
  tasks.foldl dictStep (fun _ => none)

/-! ### Sample inputs used by the witnesses -/

/-- An error message carrying the HTTP 429 rate-limit signature. -/
def msg429 : PyStr := ['E', 'r', 'r', ' ', '4', '2', '9']

/-- A generic non-rate-limit error message. -/
def msgBoom : PyStr := ['b', 'o', 'o', 'm']

/-- A sample historical point. -/
def samplePoint : HistoricalDataPoint :=
  { date := 0, open_price := 1, high_price := 1, low_price := 1,
    close_price := 1, volume := 100, dividend_amount := 0,
    split_coefficient := 1 }

/-- The same point with a different volume only. -/
def samplePointB : HistoricalDataPoint :=
  { date := 0, open_price := 1, high_price := 1, low_price := 1,
    close_price := 1, volume := 999, dividend_amount := 0,
    split_coefficient := 1 }

/-- A one-year history of identical points. -/
def sampleHist : List HistoricalDataPoint := List.replicate 252 samplePoint

/-- The same history with different volumes. -/
def sampleHistB : List HistoricalDataPoint := List.replicate 252 samplePointB

/-- A point with a distinct date per index. -/
def mkPt (i : Nat) : HistoricalDataPoint :=
  { date := (i : Int), open_price := 1, high_price := 1, low_price := 1,
    close_price := (i : ℚ) + 1, volume := 10, dividend_amount := 0,
    split_coefficient := 1 }

/-- A one-year history with pairwise-distinct dates. -/
def distinctHist : List HistoricalDataPoint := (List.range 252).map mkPt

/-- A sample scraped row. -/
def sampleScraped : ScrapedHistoricalData :=
  { date := 5, open_price := 1, high_price := 2, low_price := 1,
    close_price := 2, volume := 100, adj_close := 2 }

/-- Sample symbols for the fan-out witness. -/
def sym1 : String := "S1"

/-- Second sample symbol. -/
def sym2 : String := "S2"

/-- Third sample symbol (its task fails). -/
def sym3 : String := "S3"

/-- Fourth sample symbol. -/
def sym4 : String := "S4"

/-- Fifth sample symbol. -/
def sym5 : String := "S5"

/-- Five fan-out tasks where the third raises. -/
def sampleTasks : List (String × Except PyStr Bool) :=
  [(sym1, Except.ok true), (sym2, Except.ok true),
   (sym3, Except.error msgBoom), (sym4, Except.ok true),
   (sym5, Except.ok true)]

/-! ### Theorems -/

/-- C4: on any history of fewer than 252 points, `calculate_growth_metrics`
returns the empty metrics map (modelled `none`), never raises (the embedding
is a total function), and a second call on the same input returns the same
empty result. -/
theorem c4_insufficient_history_empty (l : List HistoricalDataPoint)
    (h : l.length < 252) :
    calculate_growth_metrics l = none ∧
      calculate_growth_metrics l = calculate_growth_metrics l := by
  refine ⟨?_, rfl⟩
  simp [calculate_growth_metrics, h]

/-- Witness for C4 at the empty history. -/
theorem c4_insufficient_history_empty_witness :
    ([] : List HistoricalDataPoint).length < 252 ∧
      (calculate_growth_metrics [] = none ∧
        calculate_growth_metrics [] = calculate_growth_metrics []) :=
  ⟨by decide, c4_insufficient_history_empty [] (by decide)⟩

/-- C10: every canonical point produced by the browser-fallback path of
`get_historical_data` has `dividend_amount = 0` and `split_coefficient = 1`,
whatever the scraper session yielded. -/
theorem c10_fallback_no_dividends
    (outcome : Except PyStr (List ScrapedHistoricalData))
    (p : HistoricalDataPoint)
    (hp : p ∈ get_historical_data_with_scraper outcome) :
    p.dividend_amount = 0 ∧ p.split_coefficient = 1 := by
  cases outcome with
  | ok rows =>
    simp only [get_historical_data_with_scraper, List.mem_map] at hp
    obtain ⟨d, _, rfl⟩ := hp
    exact ⟨rfl, rfl⟩
  | error e => simp [get_historical_data_with_scraper] at hp

/-- Witness for C10 on a one-row successful scrape. -/
theorem c10_fallback_no_dividends_witness :
    (scrapedToPoint sampleScraped).dividend_amount = 0 ∧
      (scrapedToPoint sampleScraped).split_coefficient = 1 :=
  c10_fallback_no_dividends (Except.ok [sampleScraped]) _
    (by simp [get_historical_data_with_scraper])

/-- Evaluation of `parse_volume` once the suffix step and the decimal parse
of the cleaned text are known. -/
theorem parse_volume_eval (txt cleaned : List Char) (mult ip fp fl : ℕ)
    (h0 : ¬ (txt.isEmpty ∨ txt = ['-']))
    (hst : suffixMult volumeSuffixes (upperNoCommas txt) = (mult, cleaned))
    (hd : parseDecimal (pySubClean cleaned) = some (false, ip, fp, fl)) :
    parse_volume txt = pyIntTrunc (ratOfDecimal (false, ip, fp, fl) * (mult : ℚ)) := by
  simp only [parse_volume, if_neg h0, hst, parseFloatClean, hd]
  rfl

/-- Evaluation of `parse_market_cap` once the suffix step and the decimal
parse of the cleaned text are known. -/
theorem parse_market_cap_eval (txt cleaned : List Char) (mult ip fp fl : ℕ)
    (h0 : ¬ (txt.isEmpty ∨ txt = ['-']))
    (hst : suffixMult marketCapSuffixes (upperNoCommas txt) = (mult, cleaned))
    (hd : parseDecimal (pySubClean cleaned) = some (false, ip, fp, fl)) :
    parse_market_cap txt = ratOfDecimal (false, ip, fp, fl) * (mult : ℚ) := by
  simp only [parse_market_cap, if_neg h0, hst, parseFloatClean, hd]
  rfl

/-- Truncation toward zero of a nonnegative exactly-known rational. -/
theorem pyIntTrunc_eq_of (q : ℚ) (n : ℤ) (d : ℕ) (r : ℤ)
    (h : q = (n : ℚ) / (d : ℚ)) (hq : 0 ≤ q) (hr : n / (d : ℤ) = r) :
    pyIntTrunc q = r := by
  rw [pyIntTrunc, if_pos hq, h, Rat.floor_intCast_div_natCast, hr]

/-- C6, counterexample: the claim asserts the `T` suffix scales volumes by
10^12 and the `K` suffix scales market caps by 10^3, but `_parse_volume`'s
suffix chain has no `T` case and `_parse_market_cap`'s has no `K` case: the
letter is stripped by the cleaning regex and the multiplier stays 1. -/
theorem c6_numeric_parsing_counterexample :
    parse_volume ['1', 'T'] = 1 ∧ ¬ (parse_volume ['1', 'T'] = 1000000000000) ∧
      parse_market_cap ['1', 'K'] = 1 ∧ ¬ (parse_market_cap ['1', 'K'] = 1000) := by
  have h1 : parse_volume ['1', 'T'] = 1 := by
    rw [parse_volume_eval _ ['1', 'T'] 1 1 0 0 (by decide) (by decide) (by decide)]
    exact pyIntTrunc_eq_of _ 1 1 1 (by norm_num [ratOfDecimal])
      (by norm_num [ratOfDecimal]) (by decide)
  have h2 : parse_market_cap ['1', 'K'] = 1 := by
    rw [parse_market_cap_eval _ ['1', 'K'] 1 1 0 0 (by decide) (by decide) (by decide)]
    norm_num [ratOfDecimal]
  refine ⟨h1, by rw [h1]; decide, h2, by rw [h2]; norm_num⟩

/-- C6, amended: the numeric parsers are total (never raise); a bare `"-"` or
empty string parses to the zero value; `"45,231"` parses to `45231`;
`_parse_volume` interprets the suffixes `K`/`M`/`B` as ×10^3/10^6/10^9 but
ignores `T` (multiplier 1), and `_parse_market_cap` interprets `M`/`B`/`T` as
×10^6/10^9/10^12 but ignores `K` (multiplier 1); any text whose cleaned form
fails float parsing yields the zero default. -/
theorem c6_numeric_parsing_amended :
    (∀ t : List Char, ¬ (t.isEmpty ∨ t = ['-']) →
      parseFloatClean (pySubClean (suffixMult volumeSuffixes (upperNoCommas t)).2) = none →
      parse_volume t = 0) ∧
    (∀ t : List Char, ¬ (t.isEmpty ∨ t = ['-']) →
      parseFloatClean (pySubClean (suffixMult marketCapSuffixes (upperNoCommas t)).2) = none →
      parse_market_cap t = 0) ∧
    parse_volume ['4', '5', ',', '2', '3', '1'] = 45231 ∧
    parse_volume ['1', '.', '5', 'K'] = 1500 ∧
    parse_volume ['1', '.', '5', 'M'] = 1500000 ∧
    parse_volume ['1', '.', '5', 'B'] = 1500000000 ∧
    parse_volume ['1', '.', '5', 'T'] = 1 ∧
    parse_market_cap ['1', '.', '2', 'B'] = 1200000000 ∧
    parse_market_cap ['2', 'M'] = 2000000 ∧
    parse_market_cap ['3', 'T'] = 3000000000000 ∧
    parse_market_cap ['1', '.', '5', 'K'] = 3 / 2 ∧
    parse_volume ['-'] = 0 ∧ parse_volume [] = 0 ∧
    parse_market_cap ['-'] = 0 ∧ parse_market_cap [] = 0 ∧
    parse_volume ['a', 'b', 'c'] = 0 := by
  refine ⟨?_, ?_, ?_, ?_, ?_, ?_, ?_, ?_, ?_, ?_, ?_, ?_, ?_, ?_, ?_, ?_⟩
  · intro t ht heq
    simp only [parse_volume, if_neg ht]
    rw [heq]
  · intro t ht heq
    simp only [parse_market_cap, if_neg ht]
    rw [heq]
  · rw [parse_volume_eval _ ['4', '5', '2', '3', '1'] 1 45231 0 0
      (by decide) (by decide) (by decide)]
    exact pyIntTrunc_eq_of _ 45231 1 45231 (by norm_num [ratOfDecimal])
      (by norm_num [ratOfDecimal]) (by decide)
  · rw [parse_volume_eval _ ['1', '.', '5'] 1000 1 5 1
      (by decide) (by decide) (by decide)]
    exact pyIntTrunc_eq_of _ 1500 1 1500 (by norm_num [ratOfDecimal])
      (by norm_num [ratOfDecimal]) (by decide)
  · rw [parse_volume_eval _ ['1', '.', '5'] 1000000 1 5 1
      (by decide) (by decide) (by decide)]
    exact pyIntTrunc_eq_of _ 1500000 1 1500000 (by norm_num [ratOfDecimal])
      (by norm_num [ratOfDecimal]) (by decide)
  · rw [parse_volume_eval _ ['1', '.', '5'] 1000000000 1 5 1
      (by decide) (by decide) (by decide)]
    exact pyIntTrunc_eq_of _ 1500000000 1 1500000000 (by norm_num [ratOfDecimal])
      (by norm_num [ratOfDecimal]) (by decide)
  · rw [parse_volume_eval _ ['1', '.', '5', 'T'] 1 1 5 1
      (by decide) (by decide) (by decide)]
    exact pyIntTrunc_eq_of _ 3 2 1 (by norm_num [ratOfDecimal])
      (by norm_num [ratOfDecimal]) (by decide)
  · rw [parse_market_cap_eval _ ['1', '.', '2'] 1000000000 1 2 1
      (by decide) (by decide) (by decide)]
    norm_num [ratOfDecimal]
  · rw [parse_market_cap_eval _ ['2'] 1000000 2 0 0
      (by decide) (by decide) (by decide)]
    norm_num [ratOfDecimal]
  · rw [parse_market_cap_eval _ ['3'] 1000000000000 3 0 0
      (by decide) (by decide) (by decide)]
    norm_num [ratOfDecimal]
  · rw [parse_market_cap_eval _ ['1', '.', '5', 'K'] 1 1 5 1
      (by decide) (by decide) (by decide)]
    norm_num [ratOfDecimal]
  · decide
  · decide
  · decide
  · decide
  · decide

/-- Witness for C6's amended universal clauses at a malformed input. -/
theorem c6_numeric_parsing_amended_witness :
    parse_volume ['1', '-', '2'] = 0 ∧ parse_market_cap ['1', '-', '2'] = 0 :=
  ⟨c6_numeric_parsing_amended.1 ['1', '-', '2'] (by decide) (by decide),
    c6_numeric_parsing_amended.2.1 ['1', '-', '2'] (by decide) (by decide)⟩

/-! ### Retry-policy lemmas -/

/-- The retry loop sleeps at most once per remaining iteration. -/
theorem retryGo_delays_length_le {α : Type} (maxRetries : Nat) (base : ℚ)
    (jitter : Nat → ℚ) (outcomes : Nat → Except PyStr α) :
    ∀ (remaining attempt : Nat),
      (delaysOf (retryGoT maxRetries base jitter (fun i => (outcomes i, []))
        remaining attempt).2).length ≤ remaining := by
  intro remaining
  induction remaining with
  | zero => intro attempt; simp [retryGoT, delaysOf]
  | succ r ih =>
    intro attempt
    cases ho : outcomes attempt with
    | ok v => simp [retryGoT, ho, delaysOf]
    | error e =>
      by_cases hc : isRateLimited e = true ∧ attempt < maxRetries - 1
      · simp only [retryGoT, ho]
        rw [if_pos hc]
        simpa [delaysOf, Nat.succ_le_succ_iff] using ih (attempt + 1)
      · simp only [retryGoT, ho]
        rw [if_neg hc]
        simp [delaysOf]

/-- Each slept delay equals `base * 2 ^ attempt + jitter attempt` for the
attempt it follows, and that attempt's outcome was a rate-limited error. -/
theorem retryGo_delays_spec {α : Type} (maxRetries : Nat) (base : ℚ)
    (jitter : Nat → ℚ) (outcomes : Nat → Except PyStr α) :
    ∀ (remaining attempt : Nat) (i : Nat),
      i < (delaysOf (retryGoT maxRetries base jitter
        (fun j => (outcomes j, [])) remaining attempt).2).length →
      (delaysOf (retryGoT maxRetries base jitter (fun j => (outcomes j, []))
          remaining attempt).2).getD i 0 =
        base * 2 ^ (attempt + i) + jitter (attempt + i) ∧
      ∃ e, outcomes (attempt + i) = Except.error e ∧ isRateLimited e = true := by
  intro remaining
  induction remaining with
  | zero => intro attempt i h; simp [retryGoT, delaysOf] at h
  | succ r ih =>
    intro attempt i h
    cases ho : outcomes attempt with
    | ok v => rw [retryGoT] at h; simp [ho, delaysOf] at h
    | error e =>
      by_cases hc : isRateLimited e = true ∧ attempt < maxRetries - 1
      · rw [retryGoT] at h ⊢
        simp only [ho] at h ⊢
        rw [if_pos hc] at h ⊢
        simp only [delaysOf, List.nil_append, List.filterMap_cons] at h ⊢
        cases i with
        | zero => exact ⟨by simp, e, by simpa using ho, hc.1⟩
        | succ i =>
          have harith : attempt + 1 + i = attempt + (i + 1) := by omega
          have hlen : i < (delaysOf (retryGoT maxRetries base jitter
              (fun j => (outcomes j, [])) r (attempt + 1)).2).length := by
            simpa [delaysOf] using Nat.lt_of_succ_lt_succ h
          have := ih (attempt + 1) i hlen
          simpa [delaysOf, harith] using this
      · rw [retryGoT] at h
        simp only [ho] at h
        rw [if_neg hc] at h
        simp [delaysOf] at h

/-- A non-rate-limited error propagates immediately: no sleep, re-raised. -/
theorem retryGo_non_rate_limit {α : Type} (maxRetries : Nat) (base : ℚ)
    (jitter : Nat → ℚ) (outcomes : Nat → Except PyStr α)
    (remaining attempt : Nat) (hrem : 1 ≤ remaining) (e : PyStr)
    (ho : outcomes attempt = Except.error e) (hrl : isRateLimited e = false) :
    retryGoT maxRetries base jitter (fun i => (outcomes i, []))
      remaining attempt = (some (Except.error e), []) := by
  match remaining, hrem with
  | r + 1, _ =>
    rw [retryGoT]
    simp only [ho]
    rw [if_neg (by simp [hrl])]

/-- A rate-limited error with retry budget left does trigger a retry. -/
theorem retryGo_rate_limit_retries {α : Type} (maxRetries : Nat) (base : ℚ)
    (jitter : Nat → ℚ) (outcomes : Nat → Except PyStr α)
    (remaining attempt : Nat) (hrem : 1 ≤ remaining)
    (hatt : attempt < maxRetries - 1) (e : PyStr)
    (ho : outcomes attempt = Except.error e) (hrl : isRateLimited e = true) :
    1 ≤ (delaysOf (retryGoT maxRetries base jitter (fun i => (outcomes i, []))
      remaining attempt).2).length := by
  match remaining, hrem with
  | r + 1, _ =>
    rw [retryGoT]
    simp only [ho]
    rw [if_pos ⟨hrl, hatt⟩]
    simp [delaysOf]

/-- C2: for every call wrapped by `retry_on_rate_limit`: the number of
retries (slept delays) never exceeds `maxRetries`; the delay before the retry
after attempt `i` equals `base * 2 ^ i + jitter i` and, since the jitter is a
`random.uniform(0, 1)` sample, lies in `[base * 2 ^ i, base * 2 ^ i + 1]`;
every retry is caused by a rate-limited error; a non-rate-limited error
propagates immediately with zero retries; and a rate-limited first error with
budget left is retried. -/
theorem c2_retry_policy {α : Type} (maxRetries : Nat) (base : ℚ)
    (jitter : Nat → ℚ) (outcomes : Nat → Except PyStr α)
    (hj : ∀ i, 0 ≤ jitter i ∧ jitter i ≤ 1) :
    (delaysOf (retry_on_rate_limit maxRetries base jitter outcomes).2).length ≤
        maxRetries ∧
      (∀ i, i < (delaysOf
          (retry_on_rate_limit maxRetries base jitter outcomes).2).length →
        (delaysOf (retry_on_rate_limit maxRetries base jitter
            outcomes).2).getD i 0 = base * 2 ^ i + jitter i ∧
          base * 2 ^ i ≤ (delaysOf (retry_on_rate_limit maxRetries base jitter
            outcomes).2).getD i 0 ∧
          (delaysOf (retry_on_rate_limit maxRetries base jitter
            outcomes).2).getD i 0 ≤ base * 2 ^ i + 1 ∧
          ∃ e, outcomes i = Except.error e ∧ isRateLimited e = true) ∧
      (∀ e, 1 ≤ maxRetries → outcomes 0 = Except.error e →
        isRateLimited e = false →
        retry_on_rate_limit maxRetries base jitter outcomes =
          (some (Except.error e), [])) ∧
      (∀ e, 2 ≤ maxRetries → outcomes 0 = Except.error e →
        isRateLimited e = true →
        1 ≤ (delaysOf
          (retry_on_rate_limit maxRetries base jitter outcomes).2).length) := by
  simp only [retry_on_rate_limit, retryRunT]
  refine ⟨?_, ?_, ?_, ?_⟩
  · exact retryGo_delays_length_le maxRetries base jitter outcomes maxRetries 0
  · intro i h
    have hspec := retryGo_delays_spec maxRetries base jitter outcomes
      maxRetries 0 i (by simpa [retry_on_rate_limit, retryRunT] using h)
    simp only [Nat.zero_add] at hspec
    refine ⟨hspec.1, ?_, ?_, hspec.2⟩
    · rw [hspec.1]
      have := (hj i).1
      linarith
    · rw [hspec.1]
      have := (hj i).2
      linarith
  · intro e hmax h0 hrl
    exact retryGo_non_rate_limit maxRetries base jitter outcomes
      maxRetries 0 hmax e h0 hrl
  · intro e hmax h0 hrl
    exact retryGo_rate_limit_retries maxRetries base jitter outcomes
      maxRetries 0 (by omega) (by omega) e h0 hrl

/-- Witness for C2: a persistently rate-limited call sleeps at most 3 times;
a non-rate-limited error propagates at once with no sleeps. -/
theorem c2_retry_policy_witness :
    (delaysOf (retry_on_rate_limit 3 2 (fun _ => 0)
        (fun _ => (Except.error msg429 : Except PyStr Nat))).2).length ≤ 3 ∧
      retry_on_rate_limit 3 2 (fun _ => 0)
          (fun _ => (Except.error msgBoom : Except PyStr Nat)) =
        (some (Except.error msgBoom), []) :=
  ⟨(c2_retry_policy 3 2 (fun _ => 0) (fun _ => Except.error msg429)
      (fun _ => ⟨le_refl 0, by norm_num⟩)).1,
    (c2_retry_policy 3 2 (fun _ => 0) (fun _ => Except.error msgBoom)
      (fun _ => ⟨le_refl 0, by norm_num⟩)).2.2.1 msgBoom (by norm_num) rfl
      (by decide)⟩

/-- C3, counterexample: with the default policy (3 retries, base 2s) and a
primary API that raises a rate-limited error, the decorated `get_stock_info`
invokes the browser fallback on the very first attempt and sleeps zero times:
the body catches every exception before the retry wrapper can see it, so the
fallback is *not* deferred until the retry sequence is exhausted (which would
require two sleeps first), and the rate-limited error is never surfaced. -/
theorem c3_fallback_after_retries_counterexample :
    (get_stock_info_run 3 2 (fun _ => 0) true (fun _ => Except.error msg429)
        (fun _ => none)) =
      (some (Except.ok none), [Ev.primaryCall, Ev.fallbackCall]) ∧
    List.countP Ev.isDelay (get_stock_info_run 3 2 (fun _ => 0) true
        (fun _ => Except.error msg429) (fun _ => none)).2 = 0 ∧
    List.countP Ev.isFallback (get_stock_info_run 3 2 (fun _ => 0) true
        (fun _ => Except.error msg429) (fun _ => none)).2 = 1 ∧
    isRateLimited msg429 = true :=
  ⟨rfl, rfl, rfl, by decide⟩

/-- C3, amended: `get_stock_info` catches the primary error inside the
decorated body, so whenever the first primary attempt raises (rate-limited or
not) the fallback is attempted immediately — no retry sleeps precede it, the
retry wrapper never observes an error, and the caller receives the fallback's
result (`None` when it too fails) instead of a surfaced rate-limit failure. -/
theorem c3_fallback_immediate_amended (maxRetries : Nat) (base : ℚ)
    (jitter : Nat → ℚ) (primaryOutcomes : Nat → Except PyStr StockInfo)
    (fallback : Nat → Option StockInfo) (e : PyStr)
    (hmax : 1 ≤ maxRetries) (h0 : primaryOutcomes 0 = Except.error e) :
    get_stock_info_run maxRetries base jitter true primaryOutcomes fallback =
      (some (Except.ok (fallback 0)), [Ev.primaryCall, Ev.fallbackCall]) := by
  match maxRetries, hmax with
  | m + 1, _ =>
    rw [get_stock_info_run, retryRunT, retryGoT]
    simp [get_stock_info_body, h0]

/-- Witness for C3's amended statement at a concrete failing primary. -/
theorem c3_fallback_immediate_amended_witness :
    get_stock_info_run 3 2 (fun _ => 0) true (fun _ => Except.error msgBoom)
        (fun _ => none) =
      (some (Except.ok none), [Ev.primaryCall, Ev.fallbackCall]) :=
  c3_fallback_immediate_amended 3 2 (fun _ => 0)
    (fun _ => Except.error msgBoom) (fun _ => none) msgBoom (by norm_num) rfl

/-- C5: when the primary attempt raises and the fallback also fails,
`get_stock_info` returns `None` and `get_historical_data` returns the empty
list; moreover (for any outcomes at all) both orchestrator entry points
always return a value — no exception escapes the boundary. -/
theorem c5_typed_failure_on_total_failure (maxRetries : Nat) (base : ℚ)
    (jitter : Nat → ℚ)
    (pInfo : Nat → Except PyStr StockInfo) (fbInfo : Nat → Option StockInfo)
    (pHist : Nat → Except PyStr (List HistoricalDataPoint))
    (scrape : Nat → Except PyStr (List ScrapedHistoricalData))
    (e₁ e₂ e₃ : PyStr) (hmax : 1 ≤ maxRetries)
    (h1 : pInfo 0 = Except.error e₁) (h2 : fbInfo 0 = none)
    (h3 : pHist 0 = Except.error e₂) (h4 : scrape 0 = Except.error e₃) :
    (get_stock_info_run maxRetries base jitter true pInfo fbInfo).1 =
        some (Except.ok none) ∧
      (get_historical_data_run maxRetries base jitter true pHist scrape).1 =
        some (Except.ok []) ∧
      (∀ (p : Nat → Except PyStr StockInfo) (f : Nat → Option StockInfo),
        ∃ v, (get_stock_info_run maxRetries base jitter true p f).1 =
          some (Except.ok v)) ∧
      (∀ (p : Nat → Except PyStr (List HistoricalDataPoint))
          (s : Nat → Except PyStr (List ScrapedHistoricalData)),
        ∃ v, (get_historical_data_run maxRetries base jitter true p s).1 =
          some (Except.ok v)) := by
  match maxRetries, hmax with
  | m + 1, _ =>
    refine ⟨?_, ?_, ?_, ?_⟩
    · rw [get_stock_info_run, retryRunT, retryGoT]
      simp [get_stock_info_body, h1, h2]
    · rw [get_historical_data_run, retryRunT, retryGoT]
      simp [get_historical_data_body, h3, h4, get_historical_data_with_scraper]
    · intro p f
      cases hp : p 0 with
      | ok v =>
        refine ⟨some v, ?_⟩
        rw [get_stock_info_run, retryRunT, retryGoT]
        simp [get_stock_info_body, hp]
      | error e =>
        refine ⟨f 0, ?_⟩
        rw [get_stock_info_run, retryRunT, retryGoT]
        simp [get_stock_info_body, hp]
    · intro p s
      cases hp : p 0 with
      | ok v =>
        refine ⟨v, ?_⟩
        rw [get_historical_data_run, retryRunT, retryGoT]
        simp [get_historical_data_body, hp]
      | error e =>
        refine ⟨get_historical_data_with_scraper (s 0), ?_⟩
        rw [get_historical_data_run, retryRunT, retryGoT]
        simp [get_historical_data_body, hp]

/-- Witness for C5: both primary calls rate-limited, fallbacks failing. -/
theorem c5_typed_failure_on_total_failure_witness :
    (get_stock_info_run 3 2 (fun _ => 0) true (fun _ => Except.error msg429)
        (fun _ => none)).1 = some (Except.ok none) ∧
      (get_historical_data_run 3 2 (fun _ => 0) true
        (fun _ => Except.error msg429) (fun _ => Except.error msgBoom)).1 =
        some (Except.ok []) :=
  have h := c5_typed_failure_on_total_failure 3 2 (fun _ => 0)
    (fun _ => Except.error msg429) (fun _ => none)
    (fun _ => Except.error msg429) (fun _ => Except.error msgBoom)
    msg429 msg429 msgBoom (by norm_num) rfl rfl rfl rfl
  ⟨h.1, h.2.1⟩

/-! ### Fan-out lemmas -/

/-- Keys not assigned by any task keep their prior dict entry. -/
theorem foldl_dict_not_mem :
    ∀ (ts : List (String × Except PyStr Bool)) (acc : String → Option Bool)
      (s : String), s ∉ ts.map Prod.fst → (ts.foldl dictStep acc) s = acc s := by
  intro ts
  induction ts with
  | nil => intro acc s _; rfl
  | cons t ts ih =>
    intro acc s hs
    simp only [List.map_cons, List.mem_cons, not_or] at hs
    rw [List.foldl_cons, ih _ s hs.2, dictStep, if_neg hs.1]

/-- Every requested symbol ends up in the dict, carrying the value of one of
its tasks. -/
theorem foldl_dict_mem :
    ∀ (ts : List (String × Except PyStr Bool)) (acc : String → Option Bool)
      (s : String), s ∈ ts.map Prod.fst →
      ∃ t ∈ ts, t.1 = s ∧ (ts.foldl dictStep acc) s = some (taskValue t.2) := by
  intro ts
  induction ts with
  | nil => intro acc s hs; simp at hs
  | cons t ts ih =>
    intro acc s hs
    by_cases hmem : s ∈ ts.map Prod.fst
    · obtain ⟨t', ht', heq, hval⟩ := ih (dictStep acc t) s hmem
      exact ⟨t', List.mem_cons_of_mem t ht', heq, hval⟩
    · have hst : s = t.1 := by
        simp only [List.map_cons, List.mem_cons] at hs
        tauto
      refine ⟨t, List.mem_cons_self t ts, hst.symm, ?_⟩
      rw [List.foldl_cons, foldl_dict_not_mem ts (dictStep acc t) s hmem,
        dictStep, if_pos hst]

/-- Two task lists with the same symbols in the same order, whose outcomes
agree except possibly at symbol `s`, yield dicts that agree away from `s`. -/
theorem foldl_dict_congr (s : String) :
    ∀ {ts₁ ts₂ : List (String × Except PyStr Bool)},
      List.Forall₂ (fun t₁ t₂ => t₁.1 = t₂.1 ∧ (¬ t₁.1 = s → t₁.2 = t₂.2))
        ts₁ ts₂ →
      ∀ (acc₁ acc₂ : String → Option Bool),
        (∀ s', ¬ s' = s → acc₁ s' = acc₂ s') →
      ∀ s', ¬ s' = s →
        (ts₁.foldl dictStep acc₁) s' = (ts₂.foldl dictStep acc₂) s' := by
  intro ts₁ ts₂ hrel
  induction hrel with
  | nil => intro acc₁ acc₂ hacc s' hs'; exact hacc s' hs'
  | @cons t₁ t₂ l₁ l₂ ht htail ih =>
    intro acc₁ acc₂ hacc s' hs'
    refine ih _ _ ?_ s' hs'
    intro k hk
    by_cases hk1 : k = t₁.1
    · rw [dictStep, if_pos hk1, dictStep, if_pos (hk1.trans ht.1)]
      rw [ht.2 (by rw [← hk1]; exact hk)]
    · rw [dictStep, if_neg hk1, dictStep,
        if_neg (fun hc => hk1 (hc.trans ht.1.symm))]
      exact hacc k hk

/-- C7: the concurrent fan-out returns an entry for every requested symbol —
a task that raised contributes `False`, never a missing key — and the entry
of any symbol `s'` is unaffected by arbitrary changes (including raising) in
the outcomes of tasks for a different symbol `s`. -/
theorem c7_fanout_complete (tasks : List (String × Except PyStr Bool))
    (s : String) :
    (s ∈ tasks.map Prod.fst →
      ∃ t ∈ tasks, t.1 = s ∧
        update_multiple_stocks tasks s = some (taskValue t.2)) ∧
    (∀ e : PyStr, taskValue (Except.error e) = false) ∧
    (∀ tasks₂,
      List.Forall₂ (fun t₁ t₂ => t₁.1 = t₂.1 ∧ (¬ t₁.1 = s → t₁.2 = t₂.2))
        tasks tasks₂ →
      ∀ s', ¬ s' = s →
        update_multiple_stocks tasks s' = update_multiple_stocks tasks₂ s') :=
  ⟨foldl_dict_mem tasks _ s, fun _ => rfl,
    fun _ hrel s' hs' => foldl_dict_congr s hrel _ _ (fun _ _ => rfl) s' hs'⟩

/-- Witness for C7 on five tasks whose third raises: symbol 3 is present and
maps to `False`. -/
theorem c7_fanout_complete_witness :
    ∃ t ∈ sampleTasks, t.1 = sym3 ∧
      update_multiple_stocks sampleTasks sym3 = some (taskValue t.2) :=
  (c7_fanout_complete sampleTasks sym3).1 (by decide)

/-! ### Growth-metrics lemmas -/

/-- A constant history is sorted by date. -/
theorem sorted_replicate (n : Nat) (p : HistoricalDataPoint) :
    List.Sorted byDateLe (List.replicate n p) := by
  induction n with
  | zero => exact List.sorted_nil
  | succ n ih =>
    rw [List.replicate_succ]
    refine List.sorted_cons.mpr ⟨?_, ih⟩
    intro b hb
    rw [List.eq_of_mem_replicate hb]
    exact le_refl p.date

/-- `Forall₂` holds between equal-length constant lists of related points. -/
theorem forall₂_replicate {α : Type} {R : α → α → Prop} {a b : α}
    (h : R a b) : ∀ n, List.Forall₂ R (List.replicate n a) (List.replicate n b)
  | 0 => List.Forall₂.nil
  | n + 1 => List.Forall₂.cons h (forall₂_replicate h n)

/-- The constant sample history has exactly one trading year of points. -/
theorem sampleHist_length : sampleHist.length = 252 :=
  List.length_replicate 252 samplePoint

/-- The volume-altered sample history has the same length. -/
theorem sampleHistB_length : sampleHistB.length = 252 :=
  List.length_replicate 252 samplePointB

/-- The distinct-date sample history has exactly 252 points. -/
theorem distinctHist_length : distinctHist.length = 252 :=
  (List.length_map (List.range 252) mkPt).trans (List.length_range 252)

/-- The `cagr_1y` field of the engine body, read off the definition. -/
theorem computeFromCloses_cagr_1y (closes : List ℚ) :
    (computeFromCloses closes).cagr_1y =
      ((closes.getD (closes.length - 1) 0 : ℚ) : ℝ) /
        ((closes.getD (closes.length - 252) 0 : ℚ) : ℝ) - 1 := rfl

/-- The `cagr_5y` field of the engine body, read off the definition. -/
theorem computeFromCloses_cagr_5y (closes : List ℚ) :
    (computeFromCloses closes).cagr_5y =
      if 1260 ≤ closes.length then
        Real.rpow (((closes.getD (closes.length - 1) 0 : ℚ) : ℝ) /
          (if 1260 ≤ closes.length then
              ((closes.getD (closes.length - 1260) 0 : ℚ) : ℝ)
            else ((closes.getD 0 0 : ℚ) : ℝ))) (1 / 5) - 1
      else 0 := rfl

/-- C1: on a history of at least 252 points, ascending by date,
`calculate_growth_metrics` returns a metrics map whose `cagr_1y` is
`P[n-1] / P[n-252] - 1` over the close series `P` (0-indexed, so `P[n-1]` is
the latest close and `P[n-252]` the close 251 trading days earlier, i.e.
pandas `iloc[-252]`), and whose `cagr_5y` is `(P[n-1] / P[n-1260])^(1/5) - 1`
when `n ≥ 1260` and exactly `0` otherwise. -/
theorem c1_cagr_formulas (l : List HistoricalDataPoint)
    (h252 : 252 ≤ l.length) (hsorted : List.Sorted byDateLe l) :
    ∃ m, calculate_growth_metrics l = some m ∧
      m.cagr_1y =
        ((l.map (fun p => p.close_price)).getD (l.length - 1) 0 : ℚ) /
          ((l.map (fun p => p.close_price)).getD (l.length - 252) 0 : ℚ) - 1 ∧
      (1260 ≤ l.length →
        m.cagr_5y = Real.rpow
          (((l.map (fun p => p.close_price)).getD (l.length - 1) 0 : ℚ) /
            ((l.map (fun p => p.close_price)).getD (l.length - 1260) 0 : ℚ))
          (1 / 5) - 1) ∧
      (l.length < 1260 → m.cagr_5y = 0) := by
  have hss : List.insertionSort byDateLe l = l := hsorted.insertionSort_eq
  refine ⟨computeFromCloses (l.map (fun p => p.close_price)), ?_, ?_, ?_, ?_⟩
  · rw [calculate_growth_metrics, if_neg (by omega), hss]
  · rw [computeFromCloses_cagr_1y, List.length_map]
  · intro h1260
    rw [computeFromCloses_cagr_5y, List.length_map, if_pos h1260, if_pos h1260]
  · intro h1260
    rw [computeFromCloses_cagr_5y, List.length_map,
      if_neg (by omega : ¬ 1260 ≤ l.length)]

/-- Witness for C1 on a constant one-year history. -/
theorem c1_cagr_formulas_witness :
    ∃ m, calculate_growth_metrics sampleHist = some m ∧
      m.cagr_1y =
        ((sampleHist.map (fun p => p.close_price)).getD
            (sampleHist.length - 1) 0 : ℚ) /
          ((sampleHist.map (fun p => p.close_price)).getD
            (sampleHist.length - 252) 0 : ℚ) - 1 ∧
      (1260 ≤ sampleHist.length →
        m.cagr_5y = Real.rpow
          (((sampleHist.map (fun p => p.close_price)).getD
              (sampleHist.length - 1) 0 : ℚ) /
            ((sampleHist.map (fun p => p.close_price)).getD
              (sampleHist.length - 1260) 0 : ℚ)) (1 / 5) - 1) ∧
      (sampleHist.length < 1260 → m.cagr_5y = 0) :=
  c1_cagr_formulas sampleHist (le_of_eq sampleHist_length.symm)
    (sorted_replicate 252 samplePoint)

/-- `orderedInsert` preserves pointwise date/close agreement: the comparator
reads only the date, on which related points agree. -/
theorem pcEq_orderedInsert {a b : HistoricalDataPoint} (hab : pcEq a b) :
    ∀ {l₁ l₂ : List HistoricalDataPoint}, List.Forall₂ pcEq l₁ l₂ →
      List.Forall₂ pcEq (List.orderedInsert byDateLe a l₁)
        (List.orderedInsert byDateLe b l₂) := by
  intro l₁ l₂ h
  induction h with
  | nil => exact List.Forall₂.cons hab List.Forall₂.nil
  | @cons x y lx ly hxy htail ih =>
    by_cases hle : byDateLe a x
    · have hle' : byDateLe b y := by
        unfold byDateLe at hle ⊢
        rw [← hab.1, ← hxy.1]
        exact hle
      rw [List.orderedInsert, if_pos hle, List.orderedInsert, if_pos hle']
      exact List.Forall₂.cons hab (List.Forall₂.cons hxy htail)
    · have hle' : ¬ byDateLe b y := by
        unfold byDateLe at hle ⊢
        rw [← hab.1, ← hxy.1]
        exact hle
      rw [List.orderedInsert, if_neg hle, List.orderedInsert, if_neg hle']
      exact List.Forall₂.cons hxy ih

/-- `insertionSort` preserves pointwise date/close agreement. -/
theorem pcEq_insertionSort {l₁ l₂ : List HistoricalDataPoint}
    (h : List.Forall₂ pcEq l₁ l₂) :
    List.Forall₂ pcEq (List.insertionSort byDateLe l₁)
      (List.insertionSort byDateLe l₂) := by
  induction h with
  | nil => exact List.Forall₂.nil
  | @cons x y lx ly hxy htail ih =>
    rw [List.insertionSort, List.insertionSort]
    exact pcEq_orderedInsert hxy ih

/-- Pointwise date/close agreement gives equal close columns. -/
theorem pcEq_map_close {l₁ l₂ : List HistoricalDataPoint}
    (h : List.Forall₂ pcEq l₁ l₂) :
    l₁.map (fun p => p.close_price) = l₂.map (fun p => p.close_price) := by
  induction h with
  | nil => rfl
  | @cons x y lx ly hxy htail ih => simp [hxy.2, ih]

/-- C8: two equal-length histories (≥ 252 points) agreeing pointwise on date
and close price — volumes (and the other unread fields) arbitrary — get
identical values for all five derived metrics. -/
theorem c8_volume_noninterference (l₁ l₂ : List HistoricalDataPoint)
    (hrel : List.Forall₂ pcEq l₁ l₂) (h252 : 252 ≤ l₁.length) :
    ∃ m₁ m₂, calculate_growth_metrics l₁ = some m₁ ∧
      calculate_growth_metrics l₂ = some m₂ ∧
      m₁.cagr_1y = m₂.cagr_1y ∧ m₁.cagr_5y = m₂.cagr_5y ∧
      m₁.volatility = m₂.volatility ∧ m₁.max_drawdown = m₂.max_drawdown ∧
      m₁.sharpe_ratio = m₂.sharpe_ratio := by
  have hc : (List.insertionSort byDateLe l₁).map (fun p => p.close_price) =
      (List.insertionSort byDateLe l₂).map (fun p => p.close_price) :=
    pcEq_map_close (pcEq_insertionSort hrel)
  have hlen := hrel.length_eq
  refine ⟨computeFromCloses ((List.insertionSort byDateLe l₁).map
      (fun p => p.close_price)),
    computeFromCloses ((List.insertionSort byDateLe l₂).map
      (fun p => p.close_price)),
    ?_, ?_, by rw [hc], by rw [hc], by rw [hc], by rw [hc], by rw [hc]⟩
  · rw [calculate_growth_metrics, if_neg (by omega)]
  · rw [calculate_growth_metrics, if_neg (by omega)]

/-- Witness for C8: two constant histories differing only in volume. -/
theorem c8_volume_noninterference_witness :
    ∃ m₁ m₂, calculate_growth_metrics sampleHist = some m₁ ∧
      calculate_growth_metrics sampleHistB = some m₂ ∧
      m₁.cagr_1y = m₂.cagr_1y ∧ m₁.cagr_5y = m₂.cagr_5y ∧
      m₁.volatility = m₂.volatility ∧ m₁.max_drawdown = m₂.max_drawdown ∧
      m₁.sharpe_ratio = m₂.sharpe_ratio :=
  c8_volume_noninterference sampleHist sampleHistB
    (forall₂_replicate ⟨rfl, rfl⟩ 252) (le_of_eq sampleHist_length.symm)

/-- Two sorted lists that are permutations of one another and have pairwise
distinct dates are equal. -/
theorem sorted_perm_nodup_eq :
    ∀ {la lb : List HistoricalDataPoint}, la.Perm lb →
      List.Sorted byDateLe la → List.Sorted byDateLe lb →
      (la.map (fun p => p.date)).Nodup → la = lb := by
  intro la
  induction la with
  | nil =>
    intro lb hp _ _ _
    exact hp.nil_eq
  | cons a la ih =>
    intro lb hp hsa hsb hnd
    cases lb with
    | nil => exact absurd hp.eq_nil (List.cons_ne_nil a la)
    | cons b lb =>
      have hab : a = b := by
        have hamem : a ∈ b :: lb := hp.subset (List.mem_cons_self a la)
        rcases List.mem_cons.mp hamem with h | hmem
        · exact h
        · have hbmem : b ∈ a :: la := hp.symm.subset (List.mem_cons_self b lb)
          rcases List.mem_cons.mp hbmem with h | hbmem'
          · exact h.symm
          · have h1 : a.date ≤ b.date :=
              List.rel_of_sorted_cons hsa b hbmem'
            have h2 : b.date ≤ a.date :=
              List.rel_of_sorted_cons hsb a hmem
            have hdate : b.date = a.date := le_antisymm h2 h1
            simp only [List.map_cons, List.nodup_cons] at hnd
            exact absurd (List.mem_map.mpr ⟨b, hbmem', hdate⟩) hnd.1
      subst hab
      have heq := ih hp.cons_inv (List.sorted_cons.mp hsa).2
        (List.sorted_cons.mp hsb).2
        (by simp only [List.map_cons, List.nodup_cons] at hnd; exact hnd.2)
      rw [heq]

/-- C9: on histories with pairwise-distinct dates and at least 252 points,
`calculate_growth_metrics` is invariant under permutation of the input list —
it sorts by date internally, so only the set of points matters. -/
theorem c9_permutation_invariance (l₁ l₂ : List HistoricalDataPoint)
    (hperm : l₁.Perm l₂) (hnd : (l₁.map (fun p => p.date)).Nodup)
    (h252 : 252 ≤ l₁.length) :
    calculate_growth_metrics l₁ = calculate_growth_metrics l₂ := by
  have hp : (List.insertionSort byDateLe l₁).Perm
      (List.insertionSort byDateLe l₂) :=
    (List.perm_insertionSort byDateLe l₁).trans
      (hperm.trans (List.perm_insertionSort byDateLe l₂).symm)
  have hnd₁ : ((List.insertionSort byDateLe l₁).map (fun p => p.date)).Nodup :=
    (((List.perm_insertionSort byDateLe l₁).map (fun p => p.date)).nodup_iff).mpr
      hnd
  have heq := sorted_perm_nodup_eq hp
    (List.sorted_insertionSort byDateLe l₁)
    (List.sorted_insertionSort byDateLe l₂) hnd₁
  rw [calculate_growth_metrics, calculate_growth_metrics, heq,
    hperm.length_eq]

/-- Witness for C9: a 252-point history with distinct dates against its
reversal. -/
theorem c9_permutation_invariance_witness :
    calculate_growth_metrics distinctHist =
      calculate_growth_metrics distinctHist.reverse :=
  c9_permutation_invariance distinctHist distinctHist.reverse
    (List.reverse_perm distinctHist).symm
    (by
      have hmap : distinctHist.map (fun p => p.date) =
          List.map ((fun p => p.date) ∘ mkPt) (List.range 252) :=
        List.map_map (fun p => p.date) mkPt (List.range 252)
      rw [hmap]
      exact (List.nodup_range 252).map (fun a b h => by
        simpa [mkPt] using h))
    (le_of_eq distinctHist_length.symm)

end Stock
